import Mathlib

/-!
A shallow embedding of the dissociation query service in `app.py`.

The service exposes read-only endpoints over three relations
(`ns.annotations_terms`, `ns.coordinates`, `ns.metadata`).  Tables are
embedded as Lean lists of row structures; the SQL fragments used by the
handlers (`SELECT DISTINCT ... EXCEPT ... ORDER BY study_id`, `LIKE`
patterns, `ST_3DDistance(...) < 5`) are embedded as executable Lean
functions with standard SQL semantics; each Flask handler becomes a Lean
function from its inputs (and the relevant store state) to a response
value.
-/

/-- A row of the `ns.annotations_terms` relation, restricted to the columns
the dissociation handlers read (`study_id`, `term`). -/
structure TermRow where
  study_id : Nat
  term : String
deriving DecidableEq, Repr

/-- The `ns.annotations_terms` relation. -/
abbrev TermDB := List TermRow

/-- A row of the `ns.coordinates` relation: a study identifier plus the 3-D
position of its `geom` point.  Real-valued positions are embedded as `ℚ`. -/
structure CoordRow where
  study_id : Nat
  x : ℚ
  y : ℚ
  z : ℚ
deriving DecidableEq, Repr

/-- The `ns.coordinates` relation. -/
abbrev CoordDB := List CoordRow

/-- Semantics of `SELECT DISTINCT study_id ... EXCEPT SELECT DISTINCT
study_id ... ORDER BY study_id`: rows of the first leg that do not occur in
the second leg, de-duplicated, sorted ascending.  Both handler queries in
`app.py` (terms, lines 117-129; locations, lines 201-219) have this shape. -/
def sqlExcept (a b : List Nat) : List Nat :=
  List.insertionSort (· ≤ ·) ((a.filter (fun s => decide (s ∉ b))).dedup)

/-- `SELECT study_id FROM ns.annotations_terms WHERE term = :t`
(one output row per matching stored row). -/
def studiesWithTermExact (db : TermDB) (t : String) : List Nat :=
  (db.filter (fun r => r.term == t)).map TermRow.study_id

/-- The exact-match phase of `dissociate_terms` (`app.py` lines 117-134):
`... WHERE term = :term_a EXCEPT ... WHERE term = :term_b ORDER BY study_id`. -/
def exactDissociation (db : TermDB) (a b : String) : List Nat :=
  sqlExcept (studiesWithTermExact db a) (studiesWithTermExact db b)

/-- SQL `LIKE` pattern matching over explicit character lists: `%` matches
any sequence of characters, `_` matches exactly one character, any other
pattern character matches itself (case-sensitively, as in PostgreSQL). -/
def likeMatch : List Char → List Char → Bool
  | [], s => s.isEmpty
  | '%' :: ps, s => s.tails.any (fun t => likeMatch ps t)
  | '_' :: ps, s =>
    match s with
    | [] => false
    | _ :: s2 => likeMatch ps s2
  | p :: ps, s =>
    match s with
    | [] => false
    | c :: s2 => p == c && likeMatch ps s2

/-- `s LIKE pat` for strings. -/
def sqlLike (s pat : String) : Bool :=
  likeMatch pat.toList s.toList

/-- The `LIKE` pattern built by the fuzzy phase (`app.py` lines 153-154):
the user-supplied term is embedded verbatim between two `%` wildcards. -/
def fuzzyPattern (t : String) : String :=
  "%" ++ t ++ "%"

/-- `SELECT study_id FROM ns.annotations_terms WHERE term LIKE :pat`. -/
def studiesWithTermLike (db : TermDB) (pat : String) : List Nat :=
  (db.filter (fun r => sqlLike r.term pat)).map TermRow.study_id

/-- The fuzzy phase of `dissociate_terms` (`app.py` lines 138-155):
the exact query with `term = :t` replaced by `term LIKE '%t%'`. -/
def fuzzyDissociation (db : TermDB) (a b : String) : List Nat :=
  sqlExcept (studiesWithTermLike db (fuzzyPattern a))
    (studiesWithTermLike db (fuzzyPattern b))

/-- The JSON body returned by `dissociate_terms` on the 200 path
(`app.py` lines 163-170), plus an instrumentation flag `fuzzyExecuted`
recording whether the fuzzy `LIKE` query was issued against the store. -/
structure TermsResponse where
  term_a : String
  term_b : String
  match_type : String
  dissociation : String
  count : Nat
  studies : List Nat
  fuzzyExecuted : Bool
deriving DecidableEq, Repr

/-- The handler of `GET /dissociate/terms/<term_a>/<term_b>` (`app.py`
lines 104-170), success path: run the exact `EXCEPT` query; if and only if
it returns no rows, run the `LIKE` variant; report the winning phase in
`match_type`; `count` is taken before the `studies[:50]` truncation. -/
def dissociate_terms (db : TermDB) (a b : String) : TermsResponse :=
  let result_exact := exactDissociation db a b
  if result_exact.isEmpty then
    let studies := fuzzyDissociation db a b
    { term_a := a, term_b := b, match_type := "fuzzy (LIKE)",
      dissociation := "A \\ B (studies with A but not B)",
      count := studies.length, studies := studies.take 50,
      fuzzyExecuted := true }
  else
    { term_a := a, term_b := b, match_type := "exact",
      dissociation := "A \\ B (studies with A but not B)",
      count := result_exact.length, studies := result_exact.take 50,
      fuzzyExecuted := false }

/-- The identifier set produced by the phase that actually supplied the
response (`result_like` when the exact query was empty, `result_exact`
otherwise), before truncation. -/
def winningSet (db : TermDB) (a b : String) : List Nat :=
  if (exactDissociation db a b).isEmpty then fuzzyDissociation db a b
  else exactDissociation db a b

/-- Modelled from the spec: the alternate `NOT IN` dissociation variant
(§4.1b, "Equivalent set computation via `NOT IN` subquery semantics")
is described as a coexisting earlier endpoint but is not present in
`src/app.py`.  Rows with `term_a` are kept when their `study_id` is not in
the subquery of `study_id`s with `term_b`; no `DISTINCT`/`ORDER BY` is
imposed, only the produced set matters.  Study identifiers are `Nat`, so
the "non-null single-column" proviso of the spec holds by construction. -/
def notInDissociation (db : TermDB) (a b : String) : List Nat :=
  (studiesWithTermExact db a).filter
    (fun s => decide (s ∉ studiesWithTermExact db b))

/-- Squared 3-D Euclidean distance between `(x1, y1, z1)` and
`(x2, y2, z2)`. -/
def distSq (x1 y1 z1 x2 y2 z2 : ℚ) : ℚ :=
  (x1 - x2) ^ 2 + (y1 - y2) ^ 2 + (z1 - z2) ^ 2

/-- The row predicate `ST_3DDistance(geom, ST_MakePoint(x, y, z)) < 5`
(`app.py` lines 204-207): for nonnegative distances, `dist < 5` is
equivalent to `dist² < 25`, which keeps the predicate executable over `ℚ`;
`nearPoint_iff_sqrt` below restates it through `Real.sqrt`. -/
def nearPoint (r : CoordRow) (x y z : ℚ) : Bool :=
  decide (distSq r.x r.y r.z x y z < 25)

/-- `SELECT study_id FROM ns.coordinates WHERE ST_3DDistance(geom, P) < 5`:
one output row per coordinate row lying strictly within distance 5 of the
query point. -/
def studiesNearPoint (cdb : CoordDB) (x y z : ℚ) : List Nat :=
  (cdb.filter (fun r => nearPoint r x y z)).map CoordRow.study_id

/-- The proximity dissociation query of `dissociate_locations` (`app.py`
lines 201-224): studies with some coordinate near A, `EXCEPT` studies with
some coordinate near B, ordered by `study_id`. -/
def locationDissociation (cdb : CoordDB) (x1 y1 z1 x2 y2 z2 : ℚ) : List Nat :=
  sqlExcept (studiesNearPoint cdb x1 y1 z1) (studiesNearPoint cdb x2 y2 z2)

/-- Split a character list at every occurrence of `c`, Python
`str.split` semantics: `splitOnChar '_' "" = [""]`, separators at the ends
or adjacent to each other produce empty fields. -/
def splitOnChar (c : Char) : List Char → List (List Char)
  | [] => [[]]
  | x :: xs =>
    if x == c then [] :: splitOnChar c xs
    else
      match splitOnChar c xs with
      | [] => [[x]]
      | t :: ts => (x :: t) :: ts

/-- Numeric value of a digit list, most significant digit first. -/
def digitsVal (l : List Char) : Nat :=
  l.foldl (fun n c => 10 * n + (c.toNat - 48)) 0

/-- Parse the part of a numeric literal after the optional sign:
digits, optionally followed by a point and further digits, with at least
one digit overall (so `"1."` and `".5"` parse but `"."` and `""` fail). -/
def parseFloatBody (sign : ℚ) (body : List Char) : Option ℚ :=
  let intPart := body.takeWhile Char.isDigit
  let rest := body.dropWhile Char.isDigit
  match rest with
  | [] => if intPart.isEmpty then none else some (sign * (digitsVal intPart : ℚ))
  | '.' :: frac =>
    if frac.all Char.isDigit && !(intPart.isEmpty && frac.isEmpty) then
      some (sign * ((digitsVal intPart : ℚ)
        + (digitsVal frac : ℚ) / (10 : ℚ) ^ frac.length))
    else none
  | _ => none

/-- Model of Python `float(token)` on a separator-free token: an optional
sign followed by a decimal literal; any other shape raises `ValueError`,
embedded as `none`.  (Exotic accepted spellings such as exponents or
`"inf"` are outside the inputs this development evaluates.) -/
def parseFloat (l : List Char) : Option ℚ :=
  match l with
  | '-' :: rest => parseFloatBody (-1) rest
  | '+' :: rest => parseFloatBody 1 rest
  | _ => parseFloatBody 1 l

/-- `x, y, z = map(float, coords.split("_"))` (`app.py` lines 187-188):
succeeds exactly when the string splits into three tokens and every token
parses as a float; any other shape raises `ValueError`, embedded as
`none`. -/
def parseCoords (s : String) : Option (ℚ × ℚ × ℚ) :=
  match (splitOnChar '_' s.toList).map parseFloat with
  | [some x, some y, some z] => some (x, y, z)
  | _ => none

/-- `get_engine` (`app.py` lines 10-24): fail with a `RuntimeError` when no
connection string is configured, otherwise normalize the legacy
`postgres://` scheme and build the engine (embedded as the normalized URL;
the process-wide cache is observationally irrelevant to the handlers). -/
def get_engine (config : Option String) : Except String String :=
  match config with
  | none => Except.error "Missing DB_URL (or DATABASE_URL) environment variable."
  | some url =>
    Except.ok (if url.startsWith "postgres://" then
        "postgresql://" ++ url.drop 11
      else url)

/-- The responses of `GET /dissociate/locations/...` (`app.py` lines
179-242): a 400 parse error, a 200 proximity payload (locations, the
dissociation banner, the 5 mm threshold, `count`, `studies`), or the
unhandled `RuntimeError` escaping from `get_engine`. -/
inductive LocResponse where
  | badRequest (msg : String)
  | ok (la lb : ℚ × ℚ × ℚ) (dissociation : String) (threshold : ℚ)
      (count : Nat) (studies : List Nat)
  | configFailure (msg : String)
deriving DecidableEq, Repr

/-- HTTP status of each `LocResponse` alternative (the unhandled
`RuntimeError` surfaces as the framework's 500). -/
def statusOf : LocResponse → Nat
  | LocResponse.badRequest _ => 400
  | LocResponse.ok _ _ _ _ _ _ => 200
  | LocResponse.configFailure _ => 500

/-- The 400 body of `dissociate_locations` (`app.py` line 191). -/
def invalidCoordMsg : String :=
  "Invalid coordinate format. Use x_y_z (e.g., 0_-52_26)"

/-- The handler of `GET /dissociate/locations/<coords_a>/<coords_b>`
(`app.py` lines 179-242): parse both coordinate strings first (failure →
400, before `get_engine` is called), then obtain the engine, then run the
single proximity `EXCEPT` query.  The second component records whether a
store query was issued. -/
def dissociate_locations (config : Option String) (cdb : CoordDB)
    (coords_a coords_b : String) : LocResponse × Bool :=
  match parseCoords coords_a, parseCoords coords_b with
  | some pa, some pb =>
    match get_engine config with
    | Except.error e => (LocResponse.configFailure e, false)
    | Except.ok _ =>
      let studies := locationDissociation cdb pa.1 pa.2.1 pa.2.2 pb.1 pb.2.1 pb.2.2
      (LocResponse.ok pa pb "A \\ B (studies near A but not near B)" 5
        studies.length studies, true)
  | _, _ => (LocResponse.badRequest invalidCoordMsg, false)

/-- The outcomes of the individual store probes run by `test_db` (`app.py`
lines 246-291), one field per query the handler issues, in program order.
Each probe either yields its rows/scalar or raises, embedded as `Except`.
(The `annotations_terms` fields are abbreviated to `annot_terms`.) -/
structure DbProbes where
  version : Except String String
  coordinates_count : Except String Nat
  metadata_count : Except String Nat
  annot_terms_count : Except String Nat
  coordinates_sample : Except String (List (Nat × ℚ × ℚ × ℚ))
  metadata_sample : Except String (List String)
  annot_terms_sample : Except String (List (Nat × Option Nat × String × Option ℚ))
deriving Repr

/-- The JSON payload built by `test_db`: fields are `none` until the
corresponding probe has run, mirroring the dict that starts as
`{"ok": False, ...}` and gains keys as probes succeed. -/
structure TestDbPayload where
  ok : Bool := false
  version : Option String := none
  coordinates_count : Option Nat := none
  metadata_count : Option Nat := none
  annot_terms_count : Option Nat := none
  coordinates_sample : Option (List (Nat × ℚ × ℚ × ℚ)) := none
  metadata_sample : Option (List String) := none
  annot_terms_sample : Option (List (Nat × Option Nat × String × Option ℚ)) := none
  error : Option String := none
  status : Nat := 500
deriving DecidableEq, Repr

/-- `true` exactly when the probe succeeded. -/
def probeOk {α : Type} : Except String α → Bool
  | Except.ok _ => true
  | Except.error _ => false

/-- The inner `try/except` around each sample probe (`app.py` lines
263-284): a failing sample degrades to the empty list. -/
def sampleOrEmpty {α : Type} : Except String (List α) → List α
  | Except.ok rows => rows
  | Except.error _ => []

/-- The handler of `GET /test_db` (`app.py` lines 246-291): the version
probe and the three count probes run inside the outer `try`, so the first
failure among them aborts the report with `ok = False` and a 500 status;
the three sample probes each sit in an inner `try/except` that degrades
them to `[]`; when control reaches the end, `ok = True` with a 200. -/
def test_db (p : DbProbes) : TestDbPayload :=
  match p.version with
  | Except.error e => { error := some e }
  | Except.ok v =>
    match p.coordinates_count with
    | Except.error e => { version := some v, error := some e }
    | Except.ok cc =>
      match p.metadata_count with
      | Except.error e =>
        { version := some v, coordinates_count := some cc, error := some e }
      | Except.ok mc =>
        match p.annot_terms_count with
        | Except.error e =>
          { version := some v, coordinates_count := some cc,
            metadata_count := some mc, error := some e }
        | Except.ok ac =>
          { ok := true, status := 200, version := some v,
            coordinates_count := some cc, metadata_count := some mc,
            annot_terms_count := some ac,
            coordinates_sample := some (sampleOrEmpty p.coordinates_sample),
            metadata_sample := some (sampleOrEmpty p.metadata_sample),
            annot_terms_sample := some (sampleOrEmpty p.annot_terms_sample) }

section

attribute [local semireducible] Rat.mul Rat.add Rat.sub Rat.inv Rat.ofScientific

theorem mem_sqlExcept {a b : List Nat} {s : Nat} :
    s ∈ sqlExcept a b ↔ s ∈ a ∧ s ∉ b := by
  unfold sqlExcept
  rw [List.mem_insertionSort, List.mem_dedup, List.mem_filter]
  simp

theorem sqlExcept_sorted (a b : List Nat) :
    List.Sorted (· ≤ ·) (sqlExcept a b) :=
  List.sorted_insertionSort _ _

theorem sqlExcept_nodup (a b : List Nat) : (sqlExcept a b).Nodup :=
  (List.perm_insertionSort (· ≤ ·) _).nodup_iff.mpr (List.nodup_dedup _)

theorem winningSet_nodup (db : TermDB) (a b : String) :
    (winningSet db a b).Nodup := by
  unfold winningSet exactDissociation fuzzyDissociation
  split <;> exact sqlExcept_nodup _ _

theorem winningSet_sorted (db : TermDB) (a b : String) :
    List.Sorted (· ≤ ·) (winningSet db a b) := by
  unfold winningSet exactDissociation fuzzyDissociation
  split <;> exact sqlExcept_sorted _ _

theorem dissociate_terms_studies_count (db : TermDB) (a b : String) :
    (dissociate_terms db a b).studies = (winningSet db a b).take 50
    ∧ (dissociate_terms db a b).count = (winningSet db a b).length := by
  unfold dissociate_terms winningSet
  cases h : (exactDissociation db a b).isEmpty <;> simp [h]

/-- C1: the fuzzy (`LIKE`) phase of the term dissociation endpoint runs if
and only if the exact `EXCEPT` query came back empty; a non-empty exact
result is reported with `match_type = "exact"`, and whenever the fuzzy
phase ran the response carries `match_type = "fuzzy (LIKE)"`. -/
theorem dissociate_terms_fallback (db : TermDB) (a b : String) :
    ((dissociate_terms db a b).fuzzyExecuted = true ↔ exactDissociation db a b = [])
    ∧ (exactDissociation db a b ≠ [] →
        (dissociate_terms db a b).match_type = "exact")
    ∧ ((dissociate_terms db a b).fuzzyExecuted = true →
        (dissociate_terms db a b).match_type = "fuzzy (LIKE)") := by
  unfold dissociate_terms
  cases h : exactDissociation db a b <;> simp [h]

theorem dissociate_terms_fallback_witness :
    (dissociate_terms [⟨1, "amygdala"⟩, ⟨2, "amygdala"⟩, ⟨2, "hippocampus"⟩]
        "amygdala" "hippocampus").match_type = "exact"
    ∧ (dissociate_terms [⟨1, "amygdala"⟩] "cortex" "hippocampus").match_type
        = "fuzzy (LIKE)" := by
  constructor
  · exact (dissociate_terms_fallback
      [⟨1, "amygdala"⟩, ⟨2, "amygdala"⟩, ⟨2, "hippocampus"⟩]
      "amygdala" "hippocampus").2.1 (by decide)
  · exact (dissociate_terms_fallback [⟨1, "amygdala"⟩] "cortex" "hippocampus").2.2
      ((dissociate_terms_fallback [⟨1, "amygdala"⟩] "cortex" "hippocampus").1.mpr
        (by decide))

/-- C2: every 200 response of the term dissociation endpoint returns
`min count 50` study identifiers, and `count` is the size of the
untruncated identifier set of the winning phase. -/
theorem dissociate_terms_truncation (db : TermDB) (a b : String) :
    (dissociate_terms db a b).studies.length
      = min (dissociate_terms db a b).count 50
    ∧ (dissociate_terms db a b).count = (winningSet db a b).length := by
  obtain ⟨hs, hc⟩ := dissociate_terms_studies_count db a b
  refine ⟨?_, hc⟩
  rw [hs, hc, List.length_take, Nat.min_comm]

/-- C4: the identifier lists produced by the term and the location
dissociation resolvers are duplicate-free and sorted ascending by study
identifier, and the term resolver sorts before it truncates (its response
is a `take 50` prefix of the sorted untruncated winning set). -/
theorem dissociation_results_sorted_nodup (db : TermDB) (a b : String)
    (cdb : CoordDB) (x1 y1 z1 x2 y2 z2 : ℚ) :
    ((dissociate_terms db a b).studies.Nodup
      ∧ List.Sorted (· ≤ ·) (dissociate_terms db a b).studies
      ∧ (dissociate_terms db a b).studies = (winningSet db a b).take 50
      ∧ (winningSet db a b).Nodup
      ∧ List.Sorted (· ≤ ·) (winningSet db a b))
    ∧ ((locationDissociation cdb x1 y1 z1 x2 y2 z2).Nodup
      ∧ List.Sorted (· ≤ ·) (locationDissociation cdb x1 y1 z1 x2 y2 z2)) := by
  obtain ⟨hs, _⟩ := dissociate_terms_studies_count db a b
  refine ⟨⟨?_, ?_, hs, winningSet_nodup db a b, winningSet_sorted db a b⟩,
    sqlExcept_nodup _ _, sqlExcept_sorted _ _⟩
  · rw [hs]
    exact (List.take_sublist 50 _).nodup (winningSet_nodup db a b)
  · rw [hs]
    exact List.Pairwise.sublist (List.take_sublist 50 _) (winningSet_sorted db a b)

/-- C8: over any store of term annotations (study identifiers are `Nat`,
hence non-null), the `NOT IN`-style dissociation of the spec's §4.1b and
the `EXCEPT` query of `dissociate_terms` produce the same identifier
set. -/
theorem notIn_equiv_except (db : TermDB) (a b : String) (s : Nat) :
    s ∈ notInDissociation db a b ↔ s ∈ exactDissociation db a b := by
  unfold notInDissociation exactDissociation
  rw [mem_sqlExcept, List.mem_filter]
  simp

/-- C10: the fuzzy phase wraps the raw term in `%...%` without escaping
`LIKE` metacharacters, so the input `"a%b"` matches the stored term
`"aXb"` — and the endpoint returns that study — although `"a%b"` is not a
literal substring of `"aXb"`. -/
theorem like_metachar_wildcard :
    (dissociate_terms [⟨1, "aXb"⟩] "a%b" "zzz").match_type = "fuzzy (LIKE)"
    ∧ (dissociate_terms [⟨1, "aXb"⟩] "a%b" "zzz").studies = [1]
    ∧ sqlLike "aXb" (fuzzyPattern "a%b") = true
    ∧ ¬ "a%b".toList <:+: "aXb".toList := by
  refine ⟨by decide, by decide, by decide, by decide⟩

theorem nearPoint_iff_sqrt (r : CoordRow) (x y z : ℚ) :
    nearPoint r x y z = true ↔
      Real.sqrt ((distSq r.x r.y r.z x y z : ℚ) : ℝ) < 5 := by
  rw [Real.sqrt_lt' (by norm_num : (0:ℝ) < 5),
    show ((5:ℝ) ^ 2) = ((25:ℚ) : ℝ) by norm_num]
  unfold nearPoint
  rw [decide_eq_true_iff, Rat.cast_lt]

theorem mem_studiesNearPoint {cdb : CoordDB} {x y z : ℚ} {s : Nat} :
    s ∈ studiesNearPoint cdb x y z ↔
      ∃ r ∈ cdb, r.study_id = s ∧ nearPoint r x y z = true := by
  unfold studiesNearPoint
  simp only [List.mem_map, List.mem_filter]
  tauto

/-- C3: in the proximity policy, a coordinate belongs to a query point
exactly when its 3-D Euclidean distance to the point is strictly below 5;
a study all of whose coordinates sit at distance exactly 5 from point A is
not counted as near A. -/
theorem proximity_strict_boundary (cdb : CoordDB) (x y z : ℚ) (s : Nat) :
    (s ∈ studiesNearPoint cdb x y z ↔
      ∃ r ∈ cdb, r.study_id = s
        ∧ Real.sqrt ((distSq r.x r.y r.z x y z : ℚ) : ℝ) < 5)
    ∧ ((∀ r ∈ cdb, r.study_id = s →
          Real.sqrt ((distSq r.x r.y r.z x y z : ℚ) : ℝ) = 5) →
        s ∉ studiesNearPoint cdb x y z) := by
  have hm : s ∈ studiesNearPoint cdb x y z ↔
      ∃ r ∈ cdb, r.study_id = s
        ∧ Real.sqrt ((distSq r.x r.y r.z x y z : ℚ) : ℝ) < 5 := by
    rw [mem_studiesNearPoint]
    constructor
    · rintro ⟨r, h1, h2, h3⟩
      exact ⟨r, h1, h2, (nearPoint_iff_sqrt r x y z).mp h3⟩
    · rintro ⟨r, h1, h2, h3⟩
      exact ⟨r, h1, h2, (nearPoint_iff_sqrt r x y z).mpr h3⟩
  refine ⟨hm, fun hall hmem => ?_⟩
  obtain ⟨r, h1, h2, h3⟩ := hm.mp hmem
  rw [hall r h1 h2] at h3
  exact lt_irrefl _ h3

theorem proximity_strict_boundary_witness :
    1 ∉ studiesNearPoint [⟨1, 3, 4, 0⟩] 0 0 0 := by
  refine (proximity_strict_boundary [⟨1, 3, 4, 0⟩] 0 0 0 1).2 ?_
  intro r hr _
  simp only [List.mem_singleton] at hr
  subst hr
  show Real.sqrt ((distSq 3 4 0 0 0 0 : ℚ) : ℝ) = 5
  rw [show ((distSq 3 4 0 0 0 0 : ℚ) : ℝ) = (5:ℝ) ^ 2 by norm_num [distSq]]
  exact Real.sqrt_sq (by norm_num)

theorem parseCoords_eq_some (s : String) (v : ℚ × ℚ × ℚ)
    (h : parseCoords s = some v) :
    (splitOnChar '_' s.toList).length = 3
    ∧ ∀ t ∈ splitOnChar '_' s.toList, parseFloat t ≠ none := by
  unfold parseCoords at h
  split at h
  case _ x y z heq =>
    have hlen : (splitOnChar '_' s.toList).length = 3 := by
      have h2 := congrArg List.length heq
      simpa using h2
    refine ⟨hlen, fun t ht => ?_⟩
    have h3 : parseFloat t ∈ (splitOnChar '_' s.toList).map parseFloat :=
      List.mem_map_of_mem _ ht
    rw [heq] at h3
    simp only [List.mem_cons, List.mem_singleton, List.not_mem_nil, or_false] at h3
    rcases h3 with h3 | h3 | h3 <;> simp [h3]
  case _ => exact absurd h (by simp)

theorem parseCoords_is_none (s : String)
    (h : (splitOnChar '_' s.toList).length ≠ 3
       ∨ ∃ t ∈ splitOnChar '_' s.toList, parseFloat t = none) :
    parseCoords s = none := by
  cases hc : parseCoords s with
  | none => rfl
  | some v =>
    obtain ⟨hlen, hall⟩ := parseCoords_eq_some s v hc
    rcases h with h | ⟨t, ht, hp⟩
    · exact absurd hlen h
    · exact absurd hp (hall t ht)

theorem dissociate_locations_badRequest (config : Option String)
    (cdb : CoordDB) (ca cb : String)
    (h : parseCoords ca = none ∨ parseCoords cb = none) :
    dissociate_locations config cdb ca cb
      = (LocResponse.badRequest invalidCoordMsg, false) := by
  unfold dissociate_locations
  rcases h with h | h
  · rw [h]
  · rw [h]
    cases parseCoords ca <;> rfl

/-- C5: a malformed coordinate pair — wrong number of `_`-separated tokens
or a non-numeric token in either string — makes the location dissociation
endpoint answer the 400 parse error without issuing any store query. -/
theorem loc_malformed_fast_fail (config : Option String) (cdb : CoordDB)
    (ca cb : String)
    (h : (splitOnChar '_' ca.toList).length ≠ 3
       ∨ (∃ t ∈ splitOnChar '_' ca.toList, parseFloat t = none)
       ∨ (splitOnChar '_' cb.toList).length ≠ 3
       ∨ (∃ t ∈ splitOnChar '_' cb.toList, parseFloat t = none)) :
    dissociate_locations config cdb ca cb
      = (LocResponse.badRequest invalidCoordMsg, false)
    ∧ statusOf (dissociate_locations config cdb ca cb).1 = 400 := by
  have hnone : parseCoords ca = none ∨ parseCoords cb = none := by
    rcases h with h | h | h | h
    · exact Or.inl (parseCoords_is_none ca (Or.inl h))
    · exact Or.inl (parseCoords_is_none ca (Or.inr h))
    · exact Or.inr (parseCoords_is_none cb (Or.inl h))
    · exact Or.inr (parseCoords_is_none cb (Or.inr h))
  have hb := dissociate_locations_badRequest config cdb ca cb hnone
  exact ⟨hb, by rw [hb]; rfl⟩

theorem loc_malformed_fast_fail_witness :
    dissociate_locations (some "postgresql://db") [] "0_-52" "1_2_x"
      = (LocResponse.badRequest invalidCoordMsg, false) :=
  (loc_malformed_fast_fail (some "postgresql://db") [] "0_-52" "1_2_x"
    (Or.inl (by decide))).1

/-- C9: the location dissociation handler parses both coordinate strings
before it ever calls `get_engine`, so a malformed pair yields the 400
parse error under every configuration — including a missing connection
string — and the missing-configuration failure can only surface once both
strings parse. -/
theorem loc_parse_precedes_engine (cdb : CoordDB) (ca cb : String) :
    ((parseCoords ca = none ∨ parseCoords cb = none) →
      ∀ config : Option String,
        (dissociate_locations config cdb ca cb).1
          = LocResponse.badRequest invalidCoordMsg)
    ∧ (∀ (config : Option String) (e : String),
        (dissociate_locations config cdb ca cb).1 = LocResponse.configFailure e →
          parseCoords ca ≠ none ∧ parseCoords cb ≠ none) := by
  constructor
  · intro h config
    rw [dissociate_locations_badRequest config cdb ca cb h]
  · intro config e h
    unfold dissociate_locations at h
    cases hca : parseCoords ca with
    | none => rw [hca] at h; simp at h
    | some va =>
      cases hcb : parseCoords cb with
      | none => rw [hca, hcb] at h; simp at h
      | some vb => exact ⟨by simp [hca], by simp [hcb]⟩

theorem loc_parse_precedes_engine_witness :
    (dissociate_locations none [] "abc_def_g" "0_0_0").1
      = LocResponse.badRequest invalidCoordMsg
    ∧ parseCoords "0_0_0" ≠ none := by
  constructor
  · exact (loc_parse_precedes_engine [] "abc_def_g" "0_0_0").1
      (Or.inl (by decide)) none
  · exact ((loc_parse_precedes_engine [] "0_0_0" "0_0_0").2 none
      "Missing DB_URL (or DATABASE_URL) environment variable." (by decide)).1

/-- C7: every 200 response of the proximity location dissociation endpoint
reports `count` equal to the length of the returned `studies` list, and
`studies` is the untruncated dissociation result — no 50-item cap is
applied, in contrast to the term resolver. -/
theorem loc_no_truncation (config : Option String) (cdb : CoordDB)
    (ca cb : String) (la lb : ℚ × ℚ × ℚ) (d : String) (th : ℚ)
    (cnt : Nat) (studies : List Nat)
    (h : (dissociate_locations config cdb ca cb).1
      = LocResponse.ok la lb d th cnt studies) :
    cnt = studies.length
    ∧ studies = locationDissociation cdb la.1 la.2.1 la.2.2 lb.1 lb.2.1 lb.2.2 := by
  unfold dissociate_locations at h
  cases hca : parseCoords ca with
  | none => rw [hca] at h; simp at h
  | some pa =>
    cases hcb : parseCoords cb with
    | none => rw [hca, hcb] at h; simp at h
    | some pb =>
      rw [hca, hcb] at h
      cases hg : get_engine config with
      | error e => rw [hg] at h; simp at h
      | ok u =>
        rw [hg] at h
        simp only [LocResponse.ok.injEq] at h
        obtain ⟨h1, h2, _, _, h5, h6⟩ := h
        subst h1
        subst h2
        subst h6
        exact ⟨h5.symm, rfl⟩

theorem loc_no_truncation_witness :
    (1 : Nat) = ([7] : List Nat).length
    ∧ ([7] : List Nat) = locationDissociation [⟨7, 0, -52, 26⟩]
        0 (-52) 26 100 100 100 :=
  loc_no_truncation (some "db") [⟨7, 0, -52, 26⟩] "0_-52_26" "100_100_100"
    (0, -52, 26) (100, 100, 100) "A \\ B (studies near A but not near B)" 5
    1 [7] (by decide)

/-- C6: in the diagnostic report, a failing sample probe degrades its own
field to the empty list while the report still ends with `ok = true` and a
200; a failing version probe or entity-count probe aborts the whole report
with `ok = false`, a 500 status and an error payload. -/
theorem test_db_fault_model (p : DbProbes) :
    ((probeOk p.version = true ∧ probeOk p.coordinates_count = true
        ∧ probeOk p.metadata_count = true ∧ probeOk p.annot_terms_count = true) →
      (test_db p).ok = true ∧ (test_db p).status = 200
      ∧ (probeOk p.coordinates_sample = false →
          (test_db p).coordinates_sample = some [])
      ∧ (probeOk p.metadata_sample = false →
          (test_db p).metadata_sample = some [])
      ∧ (probeOk p.annot_terms_sample = false →
          (test_db p).annot_terms_sample = some []))
    ∧ ((probeOk p.version = false ∨ probeOk p.coordinates_count = false
        ∨ probeOk p.metadata_count = false ∨ probeOk p.annot_terms_count = false) →
      (test_db p).ok = false ∧ (test_db p).status = 500
      ∧ (test_db p).error ≠ none) := by
  obtain ⟨ver, cc, mc, ac, cs, ms, ts⟩ := p
  cases ver <;> cases cc <;> cases mc <;> cases ac <;> cases cs <;> cases ms <;>
    cases ts <;> simp [test_db, probeOk, sampleOrEmpty]

theorem test_db_fault_model_witness :
    (test_db ⟨Except.ok "PostgreSQL 16", Except.ok 5, Except.ok 4, Except.ok 3,
        Except.error "boom", Except.ok ["row"], Except.ok []⟩).ok = true
    ∧ (test_db ⟨Except.ok "PostgreSQL 16", Except.ok 5, Except.ok 4, Except.ok 3,
        Except.error "boom", Except.ok ["row"], Except.ok []⟩).coordinates_sample
        = some []
    ∧ (test_db ⟨Except.ok "PostgreSQL 16", Except.error "down", Except.ok 4,
        Except.ok 3, Except.ok [], Except.ok [], Except.ok []⟩).ok = false := by
  refine ⟨?_, ?_, ?_⟩
  · exact ((test_db_fault_model ⟨Except.ok "PostgreSQL 16", Except.ok 5,
      Except.ok 4, Except.ok 3, Except.error "boom", Except.ok ["row"],
      Except.ok []⟩).1 (by refine ⟨rfl, rfl, rfl, rfl⟩)).1
  · exact ((test_db_fault_model ⟨Except.ok "PostgreSQL 16", Except.ok 5,
      Except.ok 4, Except.ok 3, Except.error "boom", Except.ok ["row"],
      Except.ok []⟩).1 (by refine ⟨rfl, rfl, rfl, rfl⟩)).2.2.1 rfl
  · exact ((test_db_fault_model ⟨Except.ok "PostgreSQL 16", Except.error "down",
      Except.ok 4, Except.ok 3, Except.ok [], Except.ok [],
      Except.ok []⟩).2 (Or.inr (Or.inl rfl))).1

end
